import Mathlib

/-!
Verification development for the Middleware-GenAI backend/tool aggregation
layer.  The definitions below are a shallow embedding of the Python sources:

- `src/components/middleware/src/mcp_manager/data/tool_models.py`
  (ToolSchema, RegisteredTool, ToolRegistry, MockBackendServer,
   MCPConnectionConfig, RemoteBackendServer)
- `src/components/middleware/src/mcp_manager/mcp_server_registry.py`
  and `src/src/mcp_manager/mcp_server_registry.py`
  (BackendRegistry.get_backends_for_principal, two revisions)
- `src/components/middleware/src/mcp_manager/mcp_manager.py`
  (build_middleware_tool_registry, build_embedding_manager)
- `src/src/middleware_application.py` (handle_call_tool re-await logic)

JSON-like payloads (handler arguments and results) are abstracted by a type
parameter `V`; JSON-schema blobs, whose contents no claim inspects, are
abstracted by an uninterpreted tag type `JsonObj`.
-/

namespace Middleware

/-- Uninterpreted stand-in for a JSON-Schema-like dictionary (`Dict[str, Any]`).
No claim inspects schema contents, so a schema is identified by a tag. -/
structure JsonObj where
  tag : String
deriving DecidableEq, Repr

/-- The permissive fallback schema used when a remote tool reports none:
in the source, a dict with type object and additionalProperties true. -/
def defaultToolInputSchema : JsonObj :=
  ⟨"object_additionalProperties_true"⟩

/-- `ToolSchema` from `tool_models.py`: name, description, input schema. -/
structure ToolSchema where
  name : String
  description : String
  input_schema : JsonObj

/-- A Python callable passed as a tool handler: either declared with `def`
(synchronous) or with `async def` (asynchronous).  In both cases `f` is the
value the handler ultimately produces for given arguments. -/
inductive PyHandler (V : Type) where
  | sync (f : V → V)
  | async (f : V → V)

/-- The handler field stored inside a `RegisteredTool`.  `wrapped h` is the
`async_handler` closure produced by the components `MockBackendServer.add_tool`
(which wraps the user handler `h`); `remoteCall sid name` is the closure
produced by `RemoteBackendServer.get_tools`, which captures `self` (the
provider, identified here by its id) and `_tool_name`, and reads the
provider's session at call time. -/
inductive HandlerRef (V : Type) where
  | wrapped (h : PyHandler V)
  | remoteCall (server_id : String) (tool_name : String)

/-- `RegisteredTool` from `tool_models.py`. -/
structure RegisteredTool (V : Type) where
  id : String
  server_id : String
  schema : ToolSchema
  handler : HandlerRef V

/-- The value a handler would produce for given arguments (the value a sync
handler returns, or the value an async handler's coroutine produces). -/
def runPyHandler {V : Type} : PyHandler V → V → V
  | .sync f, args => f args
  | .async f, args => f args

/-- Result of awaiting the wrapped `async_handler` once: either a plain value,
or a coroutine object that was returned without being awaited. -/
inductive AwaitResult (V : Type) where
  | value (v : V)
  | coroutine (f : V → V) (args : V)

/-- Whether a single await produced a plain value (not a coroutine object). -/
def AwaitResult.isValue {V : Type} : AwaitResult V → Bool
  | .value _ => true
  | .coroutine _ _ => false

/-- One await of the components `async_handler` wrapper applied to `args`.
The wrapper body is `return handler(args)`: a sync handler is called and its
value returned; an async handler is called, producing a coroutine object,
which is returned without being awaited. -/
def awaitHandlerOnce {V : Type} : PyHandler V → V → AwaitResult V
  | .sync f, args => .value (f args)
  | .async f, args => .coroutine f args

/-- Awaiting a result if it is a coroutine: models the
`if asyncio.iscoroutine(result): result = await result` step of
`handle_call_tool` in `middleware_application.py`. -/
def AwaitResult.collapse {V : Type} : AwaitResult V → V
  | .value v => v
  | .coroutine f args => f args

/-- The value `handle_call_tool` delivers for a tool whose stored handler is
the components wrapper around `h`: one await, then a second await when the
first produced a coroutine. -/
def handle_call_tool_result {V : Type} (h : PyHandler V) (args : V) : V :=
  (awaitHandlerOnce h args).collapse

/-- `ToolRegistry` from `tool_models.py`: a Python dict `id -> RegisteredTool`,
modelled as an insertion-ordered association list with unique keys. -/
structure ToolRegistry (V : Type) where
  tools : List (String × RegisteredTool V)

/-- The empty registry (`ToolRegistry.__init__`). -/
def ToolRegistry.empty (V : Type) : ToolRegistry V := ⟨[]⟩

/-- `ToolRegistry.register`: raise `ValueError` when the id is already
present, otherwise insert.  The raised exception is the `Except.error` case;
the registry value is unchanged in that case (the dict is only written after
the membership check). -/
def ToolRegistry.register {V : Type} (reg : ToolRegistry V)
    (tool : RegisteredTool V) : Except String (ToolRegistry V) :=
  if reg.tools.any (fun kv => kv.1 = tool.id) then
    .error ("Duplicate tool id: " ++ tool.id)
  else
    .ok ⟨reg.tools ++ [(tool.id, tool)]⟩

/-- `ToolRegistry.get`: dictionary lookup returning `None` on a miss. -/
def ToolRegistry.get {V : Type} (reg : ToolRegistry V) (tool_id : String) :
    Option (RegisteredTool V) :=
  (reg.tools.find? (fun kv => kv.1 = tool_id)).map (fun kv => kv.2)

/-- `ToolRegistry.list_all`: the dict's values in insertion order. -/
def ToolRegistry.list_all {V : Type} (reg : ToolRegistry V) :
    List (RegisteredTool V) :=
  reg.tools.map (fun kv => kv.2)

/-- Insertion into a Python dict: overwrite in place when the key exists,
otherwise append. -/
def dictInsert {α : Type} (l : List (String × α)) (k : String) (v : α) :
    List (String × α) :=
  if l.any (fun kv => kv.1 = k) then
    l.map (fun kv => if kv.1 = k then (k, v) else kv)
  else
    l ++ [(k, v)]

/-- `MockBackendServer` from the components `tool_models.py`: a server id and
a dict from fully qualified tool id to `RegisteredTool`. -/
structure MockBackendServer (V : Type) where
  server_id : String
  tools : List (String × RegisteredTool V)

/-- A fresh mock backend (`MockBackendServer.__init__`). -/
def MockBackendServer.init (V : Type) (server_id : String) :
    MockBackendServer V :=
  ⟨server_id, []⟩

/-- `MockBackendServer.add_tool` (components revision): qualifies the id as
`server_id.name`, wraps the given handler in the `async_handler` closure, and
stores the registered tool under the qualified id. -/
def MockBackendServer.add_tool {V : Type} (b : MockBackendServer V)
    (name description : String) (input_schema : JsonObj)
    (handler : PyHandler V) : MockBackendServer V :=
  let fully_qualified_id := b.server_id ++ "." ++ name
  let schema : ToolSchema := ⟨name, description, input_schema⟩
  let registered : RegisteredTool V :=
    ⟨fully_qualified_id, b.server_id, schema, HandlerRef.wrapped handler⟩
  ⟨b.server_id, dictInsert b.tools fully_qualified_id registered⟩

/-- `MockBackendServer.get_tools`: the dict's values. -/
def MockBackendServer.get_tools {V : Type} (b : MockBackendServer V) :
    List (RegisteredTool V) :=
  b.tools.map (fun kv => kv.2)

/-- `MCPConnectionConfig` from `tool_models.py`, with `__post_init__` defaults
already applied (`args`, `env`, `headers` never `None`). -/
structure MCPConnectionConfig where
  name : String
  transport : String
  command : Option String := none
  args : List String := []
  env : List (String × String) := []
  server_url : Option String := none
  headers : List (String × String) := []

/-- Python truthiness of an optional string (`if not self.config.command`):
`None` and the empty string are both falsy. -/
def optStrTruthy : Option String → Bool
  | none => false
  | some s => !s.isEmpty

/-- One tool definition as reported by the remote peer over MCP
(`mcp.types.Tool`): name, optional description, optional input schema. -/
structure MCPToolDef where
  name : String
  description : Option String := none
  inputSchema : Option JsonObj := none

/-- The remote MCP server on the other end of an established channel: the
tool listing it reports and the results of `call_tool` requests. -/
structure RemotePeer (V : Type) where
  tools : List MCPToolDef
  call : String → V → V

/-- Observable wire/process effects of the remote provider, used to state
that an operation performs no second listing exchange and no double release
of the underlying process or socket. -/
inductive WireEffect where
  | openTransport (resource : String)
  | openSession (resource : String)
  | handshake
  | listOps
  | release (resource : String)

/-- Outcome of the environment during one `connect()` attempt, by failure
point: the transport context (`stdio_client`, `sse_client`,
`streamablehttp_client`) may fail to enter; entering the `ClientSession`
context may fail; `initialize()` (the handshake) may fail; `list_tools()`
may fail; or all four steps succeed against a peer. -/
inductive ConnectOutcome (V : Type) where
  | transportFail (e : String)
  | sessionEnterFail (e : String)
  | initializeFail (peer : RemotePeer V)
  | listToolsFail (peer : RemotePeer V)
  | ok (peer : RemotePeer V)

/-- `RemoteBackendServer` state from `tool_models.py`: the `AsyncExitStack`
is the list of entered context resources in entry order; `session` holds the
live channel to the peer once the `ClientSession` context has been entered. -/
structure RemoteBackendServer (V : Type) where
  server_id : String
  config : MCPConnectionConfig
  exit_stack : List String
  session : Option (RemotePeer V)
  tools_mcp : List MCPToolDef
  tools_wrapped : Option (List (RegisteredTool V))

/-- `RemoteBackendServer.__init__`. -/
def RemoteBackendServer.init (V : Type) (server_id : String)
    (config : MCPConnectionConfig) : RemoteBackendServer V :=
  ⟨server_id, config, [], none, [], none⟩

/-- Name of the transport context resource entered by `connect()` (the
spawned subprocess for stdio, the open channel for sse/http). -/
def transportResource (cfg : MCPConnectionConfig) : String :=
  cfg.transport ++ ":" ++ cfg.name

/-- Name of the `ClientSession` context resource entered by `connect()`. -/
def sessionResource (cfg : MCPConnectionConfig) : String :=
  "ClientSession:" ++ cfg.name

/-- The error message of the handshake failure case. -/
def handshakeFailMsg : String := "McpError: initialize failed"

/-- The error message of the operation-listing failure case. -/
def listToolsFailMsg : String := "McpError: list_tools failed"

/-- `RemoteBackendServer.connect`, step by step as in the source:
return immediately when a session exists; validate the transport and its
required config field (raising `ValueError` / `NotImplementedError` before
touching any resource); enter the transport context; enter the
`ClientSession` context and assign `self._session`; run `initialize()`;
run `list_tools()` and cache the listing, resetting the wrapped-tool cache.
A failure at any step surfaces as `Except.error` and leaves the state the
step had reached (in particular `self._session` is already set when
`initialize()` or `list_tools()` fails).  The second component is the state
after the call, the third the wire effects it performed. -/
def RemoteBackendServer.connect {V : Type} (s : RemoteBackendServer V)
    (outcome : ConnectOutcome V) :
    Except String Unit × RemoteBackendServer V × List WireEffect :=
  if s.session.isSome then
    (.ok (), s, [])
  else
    let cfg := s.config
    let validated : Except String Unit :=
      if cfg.transport = "stdio" then
        if !optStrTruthy cfg.command then
          .error "ValueError: MCPConnectionConfig.command must be set for remote MCP server"
        else .ok ()
      else if cfg.transport = "sse" then
        if !optStrTruthy cfg.server_url then
          .error "ValueError: server_url must be set for sse transport"
        else .ok ()
      else if cfg.transport = "http" then
        if !optStrTruthy cfg.server_url then
          .error "ValueError: server_url must be set for http transport"
        else .ok ()
      else .error ("NotImplementedError: Unsupported transport: " ++ cfg.transport)
    match validated with
    | .error e => (.error e, s, [])
    | .ok () =>
      match outcome with
      | .transportFail e =>
          (.error e, s, [.openTransport (transportResource cfg)])
      | .sessionEnterFail e =>
          (.error e,
           { s with exit_stack := s.exit_stack ++ [transportResource cfg] },
           [.openTransport (transportResource cfg),
            .openSession (sessionResource cfg)])
      | .initializeFail peer =>
          (.error handshakeFailMsg,
           { s with
               exit_stack := s.exit_stack ++ [transportResource cfg, sessionResource cfg],
               session := some peer },
           [.openTransport (transportResource cfg),
            .openSession (sessionResource cfg), .handshake])
      | .listToolsFail peer =>
          (.error listToolsFailMsg,
           { s with
               exit_stack := s.exit_stack ++ [transportResource cfg, sessionResource cfg],
               session := some peer },
           [.openTransport (transportResource cfg),
            .openSession (sessionResource cfg), .handshake, .listOps])
      | .ok peer =>
          (.ok (),
           { s with
               exit_stack := s.exit_stack ++ [transportResource cfg, sessionResource cfg],
               session := some peer,
               tools_mcp := peer.tools,
               tools_wrapped := none },
           [.openTransport (transportResource cfg),
            .openSession (sessionResource cfg), .handshake, .listOps])

/-- `RemoteBackendServer.close`: `aclose()` unwinds the exit stack (releasing
every entered resource, most recent first), then the session and both tool
caches are cleared.  It raises nothing and returns no value. -/
def RemoteBackendServer.close {V : Type} (s : RemoteBackendServer V) :
    RemoteBackendServer V × List WireEffect :=
  ({ s with exit_stack := [], session := none, tools_mcp := [],
            tools_wrapped := none },
   s.exit_stack.reverse.map WireEffect.release)

/-- The message of the `RuntimeError` raised by `get_tools` when called on a
provider without a session. -/
def notConnectedMsg : String :=
  "RuntimeError: RemoteBackendServer not connected; call await connect() first"

/-- Wrapping of one reported tool into a `RegisteredTool`, as in the body of
`RemoteBackendServer.get_tools`: empty-string fallback for the description,
permissive fallback schema, id qualified as `server_id.name`, and a handler
closure that captures the provider and the tool name. -/
def wrapMCPTool (V : Type) (server_id : String) (t : MCPToolDef) :
    RegisteredTool V :=
  let description := t.description.getD ""
  let input_schema :=
    match t.inputSchema with
    | some sch => sch
    | none => defaultToolInputSchema
  ⟨server_id ++ "." ++ t.name, server_id,
   ⟨t.name, description, input_schema⟩,
   HandlerRef.remoteCall server_id t.name⟩

/-- `RemoteBackendServer.get_tools`: return the wrapped-tool cache when
present; otherwise raise `RuntimeError` when there is no session; otherwise
wrap the cached listing and store it in the cache.  No wire effect is ever
performed. -/
def RemoteBackendServer.get_tools {V : Type} (s : RemoteBackendServer V) :
    Except String (List (RegisteredTool V)) × RemoteBackendServer V × List WireEffect :=
  match s.tools_wrapped with
  | some w => (.ok w, s, [])
  | none =>
    match s.session with
    | none => (.error notConnectedMsg, s, [])
    | some _ =>
      let wrapped := s.tools_mcp.map (wrapMCPTool V s.server_id)
      (.ok wrapped, { s with tools_wrapped := some wrapped }, [])

/-- Outcome of invoking a tool handler: a returned value
(`result.model_dump()`), a structured `CallError` result (the outcome the
specification's error taxonomy prescribes for handler-level failures), or a
raw exception propagating out of the handler. -/
inductive HandlerOutcome (V : Type) where
  | ok (v : V)
  | callError (msg : String)
  | raised (e : String)

/-- Whether the outcome is a structured `CallError` result. -/
def HandlerOutcome.isCallError {V : Type} : HandlerOutcome V → Bool
  | .callError _ => true
  | _ => false

/-- Whether the outcome is a raw exception propagating out of the handler. -/
def HandlerOutcome.isRaised {V : Type} : HandlerOutcome V → Bool
  | .raised _ => true
  | _ => false

/-- The message of the failed assertion inside the remote tool handler. -/
def sessionAssertMsg : String := "AssertionError: self._session is not None"

/-- Invoking the handler closure produced by `RemoteBackendServer.get_tools`
for tool `tool_name`, against the provider state `s` current at call time
(the closure reads `self._session` when called): the body first executes
`assert self._session is not None`, which raises when the session is gone,
then performs `call_tool` over the channel and returns the dumped result. -/
def invokeRemoteHandler {V : Type} (s : RemoteBackendServer V)
    (tool_name : String) (args : V) : HandlerOutcome V :=
  match s.session with
  | none => .raised sessionAssertMsg
  | some sess => .ok (sess.call tool_name args)

/-- An operation performed on a remote provider, for reachability. -/
inductive RemoteOp (V : Type) where
  | connect (outcome : ConnectOutcome V)
  | close
  | get_tools

/-- The provider state after performing one operation. -/
def RemoteBackendServer.applyOp {V : Type} (s : RemoteBackendServer V) :
    RemoteOp V → RemoteBackendServer V
  | .connect outcome => (s.connect outcome).2.1
  | .close => (s.close).1
  | .get_tools => (s.get_tools).2.1

/-- The provider state after a sequence of operations. -/
def RemoteBackendServer.runOps {V : Type} (s : RemoteBackendServer V)
    (ops : List (RemoteOp V)) : RemoteBackendServer V :=
  ops.foldl RemoteBackendServer.applyOp s

/-- The principal dictionary, restricted to the keys the sources read:
`user_id` and `roles` (read with defaults by `get_backends_for_principal`)
and `role` (read without a default by `build_embedding_manager`, so a
missing key is a `KeyError` there). -/
structure Principal where
  user_id : Option String := none
  roles : List String := []
  role : Option String := none

/-- The user id as resolved in the sources: `principal.get("user_id", "guest")`. -/
def Principal.userId (p : Principal) : String := p.user_id.getD "guest"

/-- A backend descriptor of the file-backed revision
(`src/src/mcp_manager/mcp_server_registry.py`), with the `dict.get` defaults
of that code baked in as field defaults. -/
structure BackendDef where
  name : String
  enabled : Bool := true
  kind : String := ""
  factory : String := ""
  required_roles : List String := []
  allowed_users : List String := []
  transport : String := "stdio"
  command : Option String := none
  args : List String := []
  env : List (String × String) := []
  server_url : Option String := none
  headers : List (String × String) := []

/-- Role check of the authorization filter:
`not required_roles or any(r in roles for r in required_roles)`. -/
def has_role (required_roles roles : List String) : Bool :=
  required_roles.isEmpty || required_roles.any (fun r => roles.contains r)

/-- User check of the authorization filter:
`not allowed_users or user_id in allowed_users`. -/
def user_allowed (allowed_users : List String) (user_id : String) : Bool :=
  allowed_users.isEmpty || allowed_users.contains user_id

/-- The authorization predicate (named `is_allowed` in the specification):
the conjunction `has_role and user_allowed` computed by
`get_backends_for_principal` from the descriptor and the principal. -/
def is_allowed (d : BackendDef) (p : Principal) : Bool :=
  has_role d.required_roles p.roles && user_allowed d.allowed_users p.userId

/-- A backend server produced by aggregation: the abstract `BackendServer`
base class has the `MockBackendServer` and `RemoteBackendServer` variants. -/
inductive BackendServer (V : Type) where
  | mock (m : MockBackendServer V)
  | remote (r : RemoteBackendServer V)

/-- `get_tools()` as called by the aggregation loop: immediate for a mock
backend, the (possibly raising) `RemoteBackendServer.get_tools` result for a
remote one. -/
def BackendServer.get_tools {V : Type} :
    BackendServer V → Except String (List (RegisteredTool V))
  | .mock m => .ok m.get_tools
  | .remote r => (r.get_tools).1

/-- The backend factory table.  A factory is a zero-argument constructor of a
fresh `MockBackendServer`; in this pure model it is represented by the
backend it constructs. -/
def FactoryTable (V : Type) : Type := List (String × MockBackendServer V)

/-- `self._factories.get(factory_name)`. -/
def factoryGet {V : Type} (factories : FactoryTable V) (key : String) :
    Option (MockBackendServer V) :=
  (factories.find? (fun kv => kv.1 = key)).map (fun kv => kv.2)

/-- The `MCPConnectionConfig` built by the file-backed revision's remote
branch, reading connection parameters from the descriptor's top level. -/
def BackendDef.connectionConfig (d : BackendDef) : MCPConnectionConfig :=
  { name := d.name, transport := d.transport, command := d.command,
    args := d.args, env := d.env, server_url := d.server_url,
    headers := d.headers }

/-- `BackendRegistry.get_backends_for_principal` of the file-backed revision
(`src/src/mcp_manager/mcp_server_registry.py`, lines 91-145), one descriptor
at a time: skip when disabled; skip when the factory is unknown and the kind
is not `remote_mcp`; skip when the authorization check fails; for
`local_mcp_mock`, look the factory up again and append its backend; for
`remote_mcp`, build a connection config, construct a provider and `connect()`
it — a connection failure raises out of the whole call.  `connectOutcome`
gives the environment's behaviour for the connection attempt of each named
server. -/
def get_backends_for_principal {V : Type} (factories : FactoryTable V)
    (connectOutcome : String → ConnectOutcome V) (p : Principal) :
    List BackendDef → Except String (List (BackendServer V))
  | [] => .ok []
  | d :: rest =>
    if !d.enabled then
      get_backends_for_principal factories connectOutcome p rest
    else if (factoryGet factories d.factory).isNone && d.kind ≠ "remote_mcp" then
      get_backends_for_principal factories connectOutcome p rest
    else if !is_allowed d p then
      get_backends_for_principal factories connectOutcome p rest
    else if d.kind = "local_mcp_mock" then
      match factoryGet factories d.factory with
      | none => get_backends_for_principal factories connectOutcome p rest
      | some backend =>
        (get_backends_for_principal factories connectOutcome p rest).map
          (fun bs => BackendServer.mock backend :: bs)
    else if d.kind = "remote_mcp" then
      let cfg := d.connectionConfig
      let conn := (RemoteBackendServer.init V cfg.name cfg).connect (connectOutcome d.name)
      match conn.1 with
      | .error e => .error e
      | .ok _ =>
        (get_backends_for_principal factories connectOutcome p rest).map
          (fun bs => BackendServer.remote conn.2.1 :: bs)
    else
      get_backends_for_principal factories connectOutcome p rest

/-- A row of the database view `vw_mcp_servers_effective_by_username` as read
by the components revision (`load_allowed_servers_for_user` plus the
`server.get` / `cfg.get` defaults of `get_backends_for_principal`). -/
structure ServerRow where
  name : String
  kind : String := ""
  enabled : Bool := true
  transport : String := "stdio"
  factory : String := ""
  command : Option String := none
  args : List String := []
  env : List (String × String) := []
  server_url : Option String := none
  headers : List (String × String) := []

/-- The `MCPConnectionConfig` built by the components revision's remote
branch from a database row. -/
def ServerRow.connectionConfig (row : ServerRow) : MCPConnectionConfig :=
  { name := row.name, transport := row.transport, command := row.command,
    args := row.args, env := row.env, server_url := row.server_url,
    headers := row.headers }

/-- `BackendRegistry.get_backends_for_principal` of the components revision
(`src/components/middleware/src/mcp_manager/mcp_server_registry.py`, lines
58-108): the rows are already the servers the database allows for the user;
skip when disabled; for `local_mcp_mock`, silently skip when the factory is
unknown, otherwise append the factory's backend; for `remote_mcp`, construct
and `connect()` a remote provider — a connection failure raises out of the
whole call. -/
def mw_get_backends_for_principal {V : Type} (factories : FactoryTable V)
    (connectOutcome : String → ConnectOutcome V) :
    List ServerRow → Except String (List (BackendServer V))
  | [] => .ok []
  | row :: rest =>
    if !row.enabled then
      mw_get_backends_for_principal factories connectOutcome rest
    else if row.kind = "local_mcp_mock" then
      match factoryGet factories row.factory with
      | none => mw_get_backends_for_principal factories connectOutcome rest
      | some backend =>
        (mw_get_backends_for_principal factories connectOutcome rest).map
          (fun bs => BackendServer.mock backend :: bs)
    else if row.kind = "remote_mcp" then
      let cfg := row.connectionConfig
      let conn := (RemoteBackendServer.init V cfg.name cfg).connect (connectOutcome row.name)
      match conn.1 with
      | .error e => .error e
      | .ok _ =>
        (mw_get_backends_for_principal factories connectOutcome rest).map
          (fun bs => BackendServer.remote conn.2.1 :: bs)
    else
      mw_get_backends_for_principal factories connectOutcome rest

/-- `get_mcp_servers` of the components `mcp_manager.py`: thin wrapper that
feeds the database's allowed-server rows for the principal's username into
`BackendRegistry.get_backends_for_principal`.  `dbAllowed` is the external
database view keyed by username. -/
def get_mcp_servers {V : Type} (dbAllowed : String → List ServerRow)
    (factories : FactoryTable V) (connectOutcome : String → ConnectOutcome V)
    (p : Principal) : Except String (List (BackendServer V)) :=
  mw_get_backends_for_principal factories connectOutcome (dbAllowed p.userId)

/-- Input schema of the `documents.upsert` tool (contents not modelled). -/
def upsertInputSchema : JsonObj := ⟨"documents_upsert_input"⟩

/-- Input schema of the `documents.search` tool (contents not modelled). -/
def searchInputSchema : JsonObj := ⟨"documents_search_input"⟩

/-- The `KeyError` raised by `current_principal["role"]` when the principal
has no `role` entry. -/
def keyErrorRole : String := "KeyError: role"

/-- `build_embedding_manager` of the components `mcp_manager.py` (lines
56-153): builds the in-process `document_store` backend; reads
`current_principal["role"]` (raising `KeyError` when absent) and adds the
`documents.upsert` tool only for role `admin`; always adds
`documents.search`.  The embedding-manager operations the two async handlers
delegate to are external collaborators, abstracted as `em_upsert` and
`em_search`. -/
def build_embedding_manager {V : Type} (em_upsert em_search : V → V)
    (p : Principal) : Except String (MockBackendServer V) :=
  let backend := MockBackendServer.init V "document_store"
  match p.role with
  | none => .error keyErrorRole
  | some role =>
    let backend1 :=
      if role = "admin" then
        backend.add_tool "documents.upsert"
          "Index or upsert documents into a semantic corpus."
          upsertInputSchema (PyHandler.async em_upsert)
      else backend
    .ok (backend1.add_tool "documents.search"
          "Semantic search over a corpus."
          searchInputSchema (PyHandler.async em_search))

/-- The inner registration loop of `build_middleware_tool_registry`:
register every tool of one backend, a duplicate id raising out. -/
def registerBackendTools {V : Type} (reg : ToolRegistry V)
    (ts : List (RegisteredTool V)) : Except String (ToolRegistry V) :=
  ts.foldlM ToolRegistry.register reg

/-- The outer registration loop of `build_middleware_tool_registry`:
`for backend in backends: for tool in backend.get_tools(): registry.register(tool)`. -/
def registerBackends {V : Type} (reg : ToolRegistry V) :
    List (BackendServer V) → Except String (ToolRegistry V)
  | [] => .ok reg
  | b :: rest => do
    let ts ← b.get_tools
    let reg2 ← registerBackendTools reg ts
    registerBackends reg2 rest

/-- `build_middleware_tool_registry` of the components `mcp_manager.py`
(lines 29-50): fetch the principal-accessible backends, append the
`document_store` backend from `build_embedding_manager`, and register every
tool of every backend into a fresh registry.  The source first calls
`backend_registry.load_config_from_disk()`; the components `BackendRegistry`
does not define that method (the file-backed revision does), so the call is
modelled as the config refresh it performs there, which has no effect on the
database-driven retrieval below. -/
def build_middleware_tool_registry {V : Type}
    (dbAllowed : String → List ServerRow) (factories : FactoryTable V)
    (connectOutcome : String → ConnectOutcome V)
    (em_upsert em_search : V → V) (p : Principal) :
    Except String (ToolRegistry V) := do
  let backends ← get_mcp_servers dbAllowed factories connectOutcome p
  let emb ← build_embedding_manager em_upsert em_search p
  registerBackends (ToolRegistry.empty V) (backends ++ [BackendServer.mock emb])

/-- Whether an `Except` computation succeeded. -/
def exceptIsOk {ε α : Type} : Except ε α → Bool
  | .ok _ => true
  | .error _ => false

/-- The registry's key list (the dict's keys in insertion order). -/
def ToolRegistry.keys {V : Type} (reg : ToolRegistry V) : List String :=
  reg.tools.map (fun kv => kv.1)

/-- Whether the registry contains a tool under the given id. -/
def ToolRegistry.containsId {V : Type} (reg : ToolRegistry V) (id : String) :
    Bool :=
  reg.tools.any (fun kv => kv.1 = id)

/-- The tool list a backend would deliver, as a total function: for a remote
provider this is the wrapped-tool cache when present, otherwise the wrap of
the cached listing.  It agrees with `get_tools` whenever that call does not
raise. -/
def BackendServer.toolsList {V : Type} : BackendServer V → List (RegisteredTool V)
  | .mock m => m.get_tools
  | .remote r =>
    match r.tools_wrapped with
    | some w => w
    | none => r.tools_mcp.map (wrapMCPTool V r.server_id)

/-- The tool ids a backend would deliver. -/
def BackendServer.toolIds {V : Type} (b : BackendServer V) : List String :=
  b.toolsList.map (fun t => t.id)

/-- The backend one database row contributes under the components revision,
when aggregation as a whole succeeds: none when the row is disabled, skipped
(unknown factory or unknown kind) or its connection fails; otherwise the
constructed backend. -/
def rowBackend {V : Type} (factories : FactoryTable V)
    (connectOutcome : String → ConnectOutcome V) (row : ServerRow) :
    Option (BackendServer V) :=
  if !row.enabled then none
  else if row.kind = "local_mcp_mock" then
    (factoryGet factories row.factory).map BackendServer.mock
  else if row.kind = "remote_mcp" then
    let cfg := row.connectionConfig
    let conn := (RemoteBackendServer.init V cfg.name cfg).connect (connectOutcome row.name)
    match conn.1 with
    | .error _ => none
    | .ok _ => some (BackendServer.remote conn.2.1)
  else none

/-- The tool ids one database row exposes through its contributed backend
(empty when it contributes none). -/
def rowToolIds {V : Type} (factories : FactoryTable V)
    (connectOutcome : String → ConnectOutcome V) (row : ServerRow) :
    List String :=
  match rowBackend factories connectOutcome row with
  | none => []
  | some b => b.toolIds

/-- The tool ids of the built-in `document_store` backend for a principal:
none at all when the `role` entry is missing (construction raises),
`documents.upsert` and `documents.search` for role `admin`, only
`documents.search` otherwise. -/
def document_store_tool_ids (p : Principal) : List String :=
  match p.role with
  | none => []
  | some role =>
    if role = "admin" then
      ["document_store.documents.upsert", "document_store.documents.search"]
    else
      ["document_store.documents.search"]

/-- Sample stdio connection config for a remote provider. -/
def sampleConfigStdio : MCPConnectionConfig :=
  { name := "youtube_transcript", transport := "stdio",
    command := some "docker", args := ["run", "-i", "--rm", "mcp/youtube-transcript"] }

/-- Sample remote peer offering one tool. -/
def samplePeer : RemotePeer Nat :=
  ⟨[⟨"get_transcript", some "Fetch a transcript", none⟩], fun _ v => v + 1⟩

/-- Sample local hr backend (what the hr factory builds). -/
def hrBackendSample : MockBackendServer Nat :=
  (MockBackendServer.init Nat "hr").add_tool "get_policy"
    "Get HR vacation policy for a country code." ⟨"hr_get_policy_input"⟩
    (PyHandler.sync (fun v => v))

/-- Sample factory table registering the hr factory. -/
def sampleFactories : FactoryTable Nat := [("hr", hrBackendSample)]

/-- Sample file-backed descriptor for the local hr backend. -/
def hrDefSample : BackendDef :=
  { name := "hr", kind := "local_mcp_mock", factory := "hr" }

/-- Sample file-backed descriptor for an unreachable remote backend. -/
def badRemoteDefSample : BackendDef :=
  { name := "youtube_transcript", kind := "remote_mcp", transport := "stdio",
    command := some "docker" }

/-- Sample environment in which every connection attempt fails. -/
def sampleConnectFail : String → ConnectOutcome Nat :=
  fun _ => ConnectOutcome.transportFail "ConnectionError: unreachable"

/-- Sample principal with no restrictions relevant (guest). -/
def samplePrincipalGuest : Principal := {}

/-- Sample registered tool used for duplicate-registration inputs. -/
def sampleTool : RegisteredTool Nat :=
  ⟨"hr.get_policy", "hr", ⟨"get_policy", "Get HR vacation policy for a country code.", ⟨"hr_get_policy_input"⟩⟩,
   HandlerRef.wrapped (PyHandler.sync (fun v => v))⟩

/-- A second registered tool under the same id (different description). -/
def sampleToolVariant : RegisteredTool Nat :=
  ⟨"hr.get_policy", "hr", ⟨"get_policy", "Another policy tool", ⟨"hr_get_policy_input_2"⟩⟩,
   HandlerRef.wrapped (PyHandler.sync (fun v => v + 2))⟩

/-- Two mock backends exposing the same fully qualified tool id. -/
def dupBackendA : MockBackendServer Nat :=
  (MockBackendServer.init Nat "dup").add_tool "t" "first provider"
    ⟨"dup_schema_a"⟩ (PyHandler.sync (fun v => v))

/-- Second provider exposing the clashing tool id. -/
def dupBackendB : MockBackendServer Nat :=
  (MockBackendServer.init Nat "dup").add_tool "t" "second provider"
    ⟨"dup_schema_b"⟩ (PyHandler.sync (fun v => v + 1))

/-- Factory table with the two clashing providers. -/
def dupFactories : FactoryTable Nat := [("fa", dupBackendA), ("fb", dupBackendB)]

/-- Database rows instantiating both clashing providers. -/
def dupRows : List ServerRow :=
  [{ name := "sa", kind := "local_mcp_mock", factory := "fa" },
   { name := "sb", kind := "local_mcp_mock", factory := "fb" }]

/-- The components aggregation at an empty descriptor set, used to exhibit
the built-in `document_store` tools: no database row at all is allowed for
the principal, every connection attempt would fail, and the principal is a
plain user. -/
def buildSampleNoDescriptors : Except String (ToolRegistry Nat) :=
  build_middleware_tool_registry (fun _ => []) [] sampleConnectFail
    (fun v => v) (fun v => v) { user_id := some "alice", role := some "user" }

/-- The concatenated tool lists of a backend list, in aggregation order. -/
def joinTools {V : Type} (bs : List (BackendServer V)) : List (RegisteredTool V) :=
  (bs.map BackendServer.toolsList).flatten

/-- Sample registry already holding the hr tool. -/
def sampleRegistryHr : ToolRegistry Nat := ⟨[("hr.get_policy", sampleTool)]⟩

/-- Sample principal with role `user`. -/
def sampleUserPrincipal : Principal := { user_id := some "alice", role := some "user" }

/-- Sample principal with role `admin`. -/
def sampleAdminPrincipal : Principal := { user_id := some "root", role := some "admin" }

/-- Sample principal whose dictionary has no `role` entry. -/
def sampleNoRolePrincipal : Principal := { user_id := some "bob" }

/-- Sample database view allowing one local hr row for every user. -/
def sampleDbOneRow : String → List ServerRow :=
  fun _ => [{ name := "hr", kind := "local_mcp_mock", factory := "hr" }]

/-- The `documents.search` tool of the built-in `document_store` backend with
identity embedding operations. -/
def dsSearchToolSample : RegisteredTool Nat :=
  ⟨"document_store.documents.search", "document_store",
   ⟨"documents.search", "Semantic search over a corpus.", searchInputSchema⟩,
   HandlerRef.wrapped (PyHandler.async (fun v => v))⟩

/-- The `documents.upsert` tool of the built-in `document_store` backend with
identity embedding operations. -/
def dsUpsertToolSample : RegisteredTool Nat :=
  ⟨"document_store.documents.upsert", "document_store",
   ⟨"documents.upsert", "Index or upsert documents into a semantic corpus.", upsertInputSchema⟩,
   HandlerRef.wrapped (PyHandler.async (fun v => v))⟩

/-- The registry `build_middleware_tool_registry` produces for the one-row
hr database and a `user`-role principal. -/
def sampleRegOneRow : ToolRegistry Nat :=
  ⟨[("hr.get_policy", sampleTool),
    ("document_store.documents.search", dsSearchToolSample)]⟩

/-- The registry `build_middleware_tool_registry` produces for an empty
database and an `admin`-role principal. -/
def sampleRegAdmin : ToolRegistry Nat :=
  ⟨[("document_store.documents.upsert", dsUpsertToolSample),
    ("document_store.documents.search", dsSearchToolSample)]⟩

/-- The `document_store` backend `build_embedding_manager` constructs for a
non-admin principal with identity embedding operations. -/
def dsSearchBackendSample : MockBackendServer Nat :=
  (MockBackendServer.init Nat "document_store").add_tool "documents.search"
    "Semantic search over a corpus." searchInputSchema
    (PyHandler.async (fun v => v))

/-! Helper lemmas about the remote provider state machine. -/

/-- `get_tools` raises the not-connected `RuntimeError` when both the
wrapped-tool cache and the session are absent. -/
theorem get_tools_error_of_disconnected {V : Type} (s : RemoteBackendServer V)
    (h1 : s.tools_wrapped = none) (h2 : s.session = none) :
    (s.get_tools).1 = .error notConnectedMsg := by
  simp [RemoteBackendServer.get_tools, h1, h2]

/-- The basic state invariant: a non-empty wrapped-tool cache implies a live
session.  It is preserved by every operation. -/
theorem applyOp_preserves_invariant {V : Type} (s : RemoteBackendServer V)
    (op : RemoteOp V)
    (h : s.tools_wrapped = none ∨ s.session.isSome = true) :
    (s.applyOp op).tools_wrapped = none ∨ (s.applyOp op).session.isSome = true := by
  cases op with
  | close =>
    simp [RemoteBackendServer.applyOp, RemoteBackendServer.close]
  | get_tools =>
    cases hw : s.tools_wrapped with
    | some w =>
      rcases h with h | h
      · simp [hw] at h
      · simp [RemoteBackendServer.applyOp, RemoteBackendServer.get_tools, hw, h]
    | none =>
      cases hs : s.session with
      | none => simp [RemoteBackendServer.applyOp, RemoteBackendServer.get_tools, hw, hs]
      | some sess => simp [RemoteBackendServer.applyOp, RemoteBackendServer.get_tools, hw, hs]
  | connect o =>
    by_cases hs : s.session.isSome = true
    · simp [RemoteBackendServer.applyOp, RemoteBackendServer.connect, hs]
    · simp [RemoteBackendServer.applyOp, RemoteBackendServer.connect, hs]
      rcases h with h | h
      · split
        · simp [h]
        · cases o <;> simp [h, hs]
      · exact absurd h hs

/-- The invariant holds at every state reachable from a fresh provider. -/
theorem runOps_invariant {V : Type} (s : RemoteBackendServer V)
    (ops : List (RemoteOp V))
    (h : s.tools_wrapped = none ∨ s.session.isSome = true) :
    (s.runOps ops).tools_wrapped = none ∨ (s.runOps ops).session.isSome = true := by
  induction ops generalizing s with
  | nil => exact h
  | cons op rest ih =>
    exact ih (s.applyOp op) (applyOp_preserves_invariant s op h)

/-- C8: `get_tools()` is idempotent: a second call without an intervening
reconnect returns the same (cached) tool set and the same state, and performs
no wire exchange at all — in particular no second operation-listing exchange
(the only `listOps` effect ever happens inside `connect`). -/
theorem claim_C8_get_tools_idempotent (V : Type) (s : RemoteBackendServer V) :
    ((s.get_tools).2.1.get_tools)
      = ((s.get_tools).1, (s.get_tools).2.1, ([] : List WireEffect))
    ∧ (s.get_tools).2.2 = [] := by
  cases hw : s.tools_wrapped with
  | some w => simp [RemoteBackendServer.get_tools, hw]
  | none =>
    cases hs : s.session with
    | none => simp [RemoteBackendServer.get_tools, hw, hs]
    | some sess => simp [RemoteBackendServer.get_tools, hw, hs]

/-- C9: `close()` is idempotent: a second `close()` returns the identical
state and releases no resource (the exit stack is already empty, so nothing
is unwound a second time); it raises nothing, being a total operation. -/
theorem claim_C9_close_idempotent (V : Type) (s : RemoteBackendServer V) :
    ((s.close).1).close = ((s.close).1, ([] : List WireEffect)) := rfl

/-- C5 (amended): invoking a handler produced by a Remote Backend Provider
after `close()` raises the session assertion (`assert self._session is not
None`) out of the handler — a raw exception, not a structured `CallError`
result and not a silent no-op. -/
theorem claim_C5_amended (V : Type) (s : RemoteBackendServer V)
    (tool_name : String) (args : V) :
    invokeRemoteHandler (s.close).1 tool_name args
      = HandlerOutcome.raised sessionAssertMsg := rfl

/-- C5 counterexample: a provider is connected against a live peer, then
closed; invoking its tool handler afterwards yields a raised exception and
not the structured `CallError` the claim promises. -/
theorem claim_C5_counterexample :
    (invokeRemoteHandler
        ((((RemoteBackendServer.init Nat "youtube_transcript" sampleConfigStdio).connect
            (ConnectOutcome.ok samplePeer)).2.1.close).1)
        "get_transcript" 0).isCallError = false
    ∧ (invokeRemoteHandler
        ((((RemoteBackendServer.init Nat "youtube_transcript" sampleConfigStdio).connect
            (ConnectOutcome.ok samplePeer)).2.1.close).1)
        "get_transcript" 0).isRaised = true := ⟨rfl, rfl⟩

/-- C6 (amended): the wrapper produced by `add_tool` yields, after a single
await, the value of a synchronous handler but the un-awaited coroutine of an
asynchronous one; the call site (`handle_call_tool`) detects the coroutine
and awaits it a second time, after which both kinds deliver the original
handler's result. -/
theorem claim_C6_amended (V : Type) (h : PyHandler V) (f : V → V) (args : V) :
    awaitHandlerOnce (PyHandler.sync f) args = AwaitResult.value (f args)
    ∧ awaitHandlerOnce (PyHandler.async f) args = AwaitResult.coroutine f args
    ∧ handle_call_tool_result h args = runPyHandler h args := by
  refine ⟨rfl, rfl, ?_⟩
  cases h <;> rfl

/-- C6 counterexample: for an asynchronous handler, a single await of the
registered wrapper does not produce the handler's value — it produces a
coroutine object. -/
theorem claim_C6_counterexample :
    (awaitHandlerOnce (PyHandler.async (fun n : Nat => n + 1)) 3).isValue
      = false := rfl

/-- C7 (amended): `get_tools()` raises the not-connected `RuntimeError`
whenever a reachable provider has no session — in particular on a fresh
provider, after `close()`, and after a connection attempt that failed before
the `ClientSession` was installed.  But a `connect()` that fails during the
handshake leaves the session installed, and `get_tools()` then returns the
stale cached listing (empty on a first connect) instead of raising. -/
theorem claim_C7_amended (V : Type) (id : String) (cfg : MCPConnectionConfig)
    (ops : List (RemoteOp V)) (t : RemoteBackendServer V) (e : String)
    (peer : RemotePeer V) :
    (((RemoteBackendServer.init V id cfg).runOps ops).session = none →
      ((((RemoteBackendServer.init V id cfg).runOps ops)).get_tools).1
        = .error notConnectedMsg)
    ∧ (RemoteBackendServer.init V id cfg).session = none
    ∧ ((t.close).1).session = none
    ∧ (t.session = none →
        ((t.connect (ConnectOutcome.transportFail e)).2.1).session = none
        ∧ ((t.connect (ConnectOutcome.sessionEnterFail e)).2.1).session = none)
    ∧ (t.session = none → t.tools_wrapped = none →
        t.config.transport = "stdio" → optStrTruthy t.config.command = true →
        ((t.connect (ConnectOutcome.initializeFail peer)).2.1).session = some peer
        ∧ (((t.connect (ConnectOutcome.initializeFail peer)).2.1).get_tools).1
            = .ok (t.tools_mcp.map (wrapMCPTool V t.server_id))) := by
  refine ⟨?_, rfl, rfl, ?_, ?_⟩
  · intro hnone
    have hinv := runOps_invariant (RemoteBackendServer.init V id cfg) ops
      (Or.inl rfl)
    rcases hinv with hw | hs
    · exact get_tools_error_of_disconnected _ hw hnone
    · rw [hnone] at hs
      simp at hs
  · intro hs
    constructor <;>
      simp [RemoteBackendServer.connect, hs] <;> split <;> simp [hs]
  · intro hs hw htr hcmd
    have : (t.connect (ConnectOutcome.initializeFail peer)).2.1
        = { t with
              exit_stack := t.exit_stack ++ [transportResource t.config, sessionResource t.config],
              session := some peer } := by
      simp [RemoteBackendServer.connect, hs, htr, hcmd]
    rw [this]
    exact ⟨rfl, by simp [RemoteBackendServer.get_tools, hw]⟩

/-- C7 counterexample: a fresh provider whose `connect()` fails during the
handshake (`initialize()` raises after the session has been installed):
`connect` raises, so it never completed successfully, yet `get_tools()` does
not raise — it returns a tool list (the empty stale cache). -/
theorem claim_C7_counterexample :
    (((RemoteBackendServer.init Nat "youtube_transcript" sampleConfigStdio).connect
        (ConnectOutcome.initializeFail samplePeer)).1
      = Except.error handshakeFailMsg)
    ∧ ((((RemoteBackendServer.init Nat "youtube_transcript" sampleConfigStdio).connect
        (ConnectOutcome.initializeFail samplePeer)).2.1.get_tools).1
      = Except.ok []) := ⟨rfl, rfl⟩

/-- C7 witness: the amended theorem applied to a concrete closed provider
and a concrete handshake failure. -/
theorem claim_C7_amended_witness :
    ((((RemoteBackendServer.init Nat "yt" sampleConfigStdio).runOps
        [RemoteOp.close]).get_tools).1 = .error notConnectedMsg)
    ∧ (((RemoteBackendServer.init Nat "yt" sampleConfigStdio).connect
        (ConnectOutcome.initializeFail samplePeer)).2.1.session = some samplePeer) := by
  have h := claim_C7_amended Nat "yt" sampleConfigStdio [RemoteOp.close]
    (RemoteBackendServer.init Nat "yt" sampleConfigStdio) "err" samplePeer
  exact ⟨h.1 rfl, (h.2.2.2.2 rfl rfl rfl rfl).1⟩

/-- C2: the authorization filter.  First conjunct: the predicate computed by
`get_backends_for_principal` is exactly the claimed one — no role restriction
when `required_roles` is empty, otherwise some role of the principal must be
listed; no user restriction when `allowed_users` is empty, otherwise the
user id must be listed; AND between the two checks.  Remaining conjuncts: in
the aggregation a disabled descriptor is skipped unconditionally (whatever
its role/user sets), an enabled descriptor failing the predicate is skipped,
and an enabled, authorized descriptor is included (local kind with a
registered factory shown; the predicate is consulted for nothing else). -/
theorem claim_C2_authorization_filter (V : Type) (factories : FactoryTable V)
    (connectOutcome : String → ConnectOutcome V) (p : Principal)
    (d : BackendDef) (rest : List BackendDef) :
    (is_allowed d p = true ↔
      ((d.required_roles = [] ∨ ∃ r ∈ p.roles, r ∈ d.required_roles)
        ∧ (d.allowed_users = [] ∨ p.userId ∈ d.allowed_users)))
    ∧ (d.enabled = false →
        get_backends_for_principal factories connectOutcome p (d :: rest)
          = get_backends_for_principal factories connectOutcome p rest)
    ∧ (d.enabled = true → is_allowed d p = false →
        get_backends_for_principal factories connectOutcome p (d :: rest)
          = get_backends_for_principal factories connectOutcome p rest)
    ∧ (d.enabled = true → is_allowed d p = true → d.kind = "local_mcp_mock" →
        ∀ m, factoryGet factories d.factory = some m →
        get_backends_for_principal factories connectOutcome p (d :: rest)
          = (get_backends_for_principal factories connectOutcome p rest).map
              (fun bs => BackendServer.mock m :: bs))
    ∧ (d.enabled = true → is_allowed d p = true → d.kind = "remote_mcp" →
        ((RemoteBackendServer.init V d.connectionConfig.name
            d.connectionConfig).connect (connectOutcome d.name)).1 = .ok () →
        get_backends_for_principal factories connectOutcome p (d :: rest)
          = (get_backends_for_principal factories connectOutcome p rest).map
              (fun bs => BackendServer.remote
                ((RemoteBackendServer.init V d.connectionConfig.name
                  d.connectionConfig).connect (connectOutcome d.name)).2.1 :: bs)) := by
  refine ⟨?_, ?_, ?_, ?_, ?_⟩
  · simp only [is_allowed, has_role, user_allowed, Bool.and_eq_true,
      Bool.or_eq_true, List.isEmpty_iff, List.any_eq_true, List.elem_iff]
    constructor
    · rintro ⟨hr, hu⟩
      refine ⟨?_, ?_⟩
      · rcases hr with hr | ⟨r, hr1, hr2⟩
        · exact Or.inl hr
        · exact Or.inr ⟨r, hr2, hr1⟩
      · rcases hu with hu | hu
        · exact Or.inl hu
        · exact Or.inr hu
    · rintro ⟨hr, hu⟩
      refine ⟨?_, ?_⟩
      · rcases hr with hr | ⟨r, hr1, hr2⟩
        · exact Or.inl hr
        · exact Or.inr ⟨r, hr2, hr1⟩
      · rcases hu with hu | hu
        · exact Or.inl hu
        · exact Or.inr hu
  · intro h
    simp [get_backends_for_principal, h]
  · intro he hall
    simp only [get_backends_for_principal, he, Bool.not_true, Bool.false_eq_true,
      if_false, hall]
    split
    · rfl
    · simp
  · intro he hall hkind m hm
    simp [get_backends_for_principal, he, hall, hkind, hm]
  · intro he hall hkind hconn
    have hkl : d.kind = "local_mcp_mock" → False := by
      intro hx
      rw [hx] at hkind
      simp at hkind
    simp [get_backends_for_principal, he, hall, hkind, hkl, hconn]

/-- C2 witness: the filter applied to scenario-B-style concrete inputs: an
unrestricted hr descriptor is allowed to a guest principal and its backend
is included; the same descriptor disabled is excluded; a role-restricted
descriptor is excluded for a guest. -/
theorem claim_C2_authorization_filter_witness :
    (is_allowed hrDefSample samplePrincipalGuest = true ↔
      ((hrDefSample.required_roles = []
          ∨ ∃ r ∈ samplePrincipalGuest.roles, r ∈ hrDefSample.required_roles)
        ∧ (hrDefSample.allowed_users = []
          ∨ samplePrincipalGuest.userId ∈ hrDefSample.allowed_users)))
    ∧ (get_backends_for_principal sampleFactories sampleConnectFail
        samplePrincipalGuest [{ hrDefSample with enabled := false }]
        = get_backends_for_principal sampleFactories sampleConnectFail
            samplePrincipalGuest [])
    ∧ (get_backends_for_principal sampleFactories sampleConnectFail
        samplePrincipalGuest [{ hrDefSample with required_roles := ["admin"] }]
        = get_backends_for_principal sampleFactories sampleConnectFail
            samplePrincipalGuest [])
    ∧ (get_backends_for_principal sampleFactories sampleConnectFail
        samplePrincipalGuest [hrDefSample]
        = (get_backends_for_principal sampleFactories sampleConnectFail
            samplePrincipalGuest []).map
            (fun bs => BackendServer.mock hrBackendSample :: bs)) := by
  refine ⟨(claim_C2_authorization_filter Nat sampleFactories sampleConnectFail
      samplePrincipalGuest hrDefSample []).1, ?_, ?_, ?_⟩
  · exact (claim_C2_authorization_filter Nat sampleFactories sampleConnectFail
      samplePrincipalGuest { hrDefSample with enabled := false } []).2.1 rfl
  · exact (claim_C2_authorization_filter Nat sampleFactories sampleConnectFail
      samplePrincipalGuest { hrDefSample with required_roles := ["admin"] } []).2.2.1
      rfl (by decide)
  · exact (claim_C2_authorization_filter Nat sampleFactories sampleConnectFail
      samplePrincipalGuest hrDefSample []).2.2.2.1 rfl (by decide) rfl
      hrBackendSample rfl

/-- C3 (amended): a factory-lookup miss for one local descriptor indeed does
not abort aggregation for the others (the descriptor is skipped, silently
and with no failure record); but a remote descriptor's connection failure
aborts the entire aggregation — the exception propagates and no surviving-backend
list and no failure record are returned. -/
theorem claim_C3_amended (V : Type) (factories : FactoryTable V)
    (connectOutcome : String → ConnectOutcome V) (p : Principal)
    (d : BackendDef) (rest : List BackendDef) (e : String) :
    (d.enabled = true → d.kind ≠ "remote_mcp" →
      factoryGet factories d.factory = none →
      get_backends_for_principal factories connectOutcome p (d :: rest)
        = get_backends_for_principal factories connectOutcome p rest)
    ∧ (d.enabled = true → d.kind = "remote_mcp" → is_allowed d p = true →
        ((RemoteBackendServer.init V d.connectionConfig.name
            d.connectionConfig).connect (connectOutcome d.name)).1 = .error e →
        get_backends_for_principal factories connectOutcome p (d :: rest)
          = .error e) := by
  constructor
  · intro he hk hf
    simp [get_backends_for_principal, he, hf, hk]
  · intro he hk hall hconn
    have hkl : d.kind = "local_mcp_mock" → False := by
      intro h
      rw [h] at hk
      simp at hk
    simp [get_backends_for_principal, he, hk, hall, hconn, hkl]

/-- C3 counterexample: with one unreachable remote descriptor in the set,
the whole aggregation returns the connection error — the hr descriptor's
backend is not returned and no failure record accompanies a registry
of the survivors, regardless of whether the failing descriptor comes before or
after the surviving one. -/
theorem claim_C3_counterexample :
    (get_backends_for_principal sampleFactories sampleConnectFail
      samplePrincipalGuest [hrDefSample, badRemoteDefSample]
      = .error "ConnectionError: unreachable")
    ∧ (get_backends_for_principal sampleFactories sampleConnectFail
      samplePrincipalGuest [badRemoteDefSample, hrDefSample]
      = .error "ConnectionError: unreachable") := ⟨rfl, rfl⟩

/-- C3 witness: the amended theorem at concrete inputs — an unknown-factory
local descriptor is skipped while the hr descriptor still aggregates, and a
failing remote descriptor aborts the aggregation. -/
theorem claim_C3_amended_witness :
    (get_backends_for_principal sampleFactories sampleConnectFail
      samplePrincipalGuest
      ({ name := "ghost", kind := "local_mcp_mock", factory := "nope" } :: [hrDefSample])
      = get_backends_for_principal sampleFactories sampleConnectFail
          samplePrincipalGuest [hrDefSample])
    ∧ (get_backends_for_principal sampleFactories sampleConnectFail
      samplePrincipalGuest (badRemoteDefSample :: [hrDefSample])
      = .error "ConnectionError: unreachable") := by
  constructor
  · exact (claim_C3_amended Nat sampleFactories sampleConnectFail
      samplePrincipalGuest { name := "ghost", kind := "local_mcp_mock", factory := "nope" }
      [hrDefSample] "x").1 rfl (by decide) rfl
  · exact (claim_C3_amended Nat sampleFactories sampleConnectFail
      samplePrincipalGuest badRemoteDefSample [hrDefSample]
      "ConnectionError: unreachable").2 rfl rfl (by decide) rfl

/-! Helper lemmas about registration and the components aggregation. -/

/-- A successful `register` appends the tool and implies the id was fresh. -/
theorem register_ok_eq {V : Type} (reg : ToolRegistry V) (t : RegisteredTool V)
    (r : ToolRegistry V) (h : reg.register t = .ok r) :
    r.tools = reg.tools ++ [(t.id, t)] ∧ reg.containsId t.id = false := by
  cases hc : reg.tools.any (fun kv => kv.1 = t.id) with
  | true => simp [ToolRegistry.register, hc] at h
  | false =>
    simp [ToolRegistry.register, hc] at h
    exact ⟨by rw [← h], hc⟩

/-- `register` raises the duplicate error when the id is present. -/
theorem register_error_of_contains {V : Type} (reg : ToolRegistry V)
    (t : RegisteredTool V) (h : reg.containsId t.id = true) :
    reg.register t = .error ("Duplicate tool id: " ++ t.id) := by
  have h' : reg.tools.any (fun kv => kv.1 = t.id) = true := h
  simp [ToolRegistry.register, h']

/-- A successful registration of a tool list appends all its pairs. -/
theorem registerBackendTools_ok {V : Type} (ts : List (RegisteredTool V)) :
    ∀ reg reg' : ToolRegistry V, registerBackendTools reg ts = .ok reg' →
      reg'.tools = reg.tools ++ ts.map (fun t => (t.id, t)) := by
  induction ts with
  | nil =>
    intro reg reg' h
    cases h
    simp
  | cons t ts ih =>
    intro reg reg' h
    cases hr : reg.register t with
    | error e =>
      rw [registerBackendTools, List.foldlM_cons, hr] at h
      exact Except.noConfusion h
    | ok r1 =>
      rw [registerBackendTools, List.foldlM_cons, hr] at h
      have h2 := ih r1 reg' h
      rw [h2, (register_ok_eq reg t r1 hr).1]
      simp

/-- A successful registration implies the combined key list has no
duplicates. -/
theorem registerBackendTools_ok_nodup {V : Type} (ts : List (RegisteredTool V)) :
    ∀ reg reg' : ToolRegistry V, registerBackendTools reg ts = .ok reg' →
      reg.keys.Nodup → (reg.keys ++ ts.map (fun t => t.id)).Nodup := by
  induction ts with
  | nil =>
    intro reg reg' h hnd
    simpa using hnd
  | cons t ts ih =>
    intro reg reg' h hnd
    cases hr : reg.register t with
    | error e =>
      rw [registerBackendTools, List.foldlM_cons, hr] at h
      exact Except.noConfusion h
    | ok r1 =>
      rw [registerBackendTools, List.foldlM_cons, hr] at h
      obtain ⟨happ, hfresh⟩ := register_ok_eq reg t r1 hr
      have hnotmem : t.id ∉ reg.keys := by
        intro hmem
        simp only [ToolRegistry.keys, List.mem_map] at hmem
        obtain ⟨kv, hkv, hkid⟩ := hmem
        have hany : reg.tools.any (fun kv => kv.1 = t.id) = true :=
          List.any_eq_true.mpr ⟨kv, hkv, by simp [hkid]⟩
        simp only [ToolRegistry.containsId] at hfresh
        rw [hany] at hfresh
        exact Bool.noConfusion hfresh
      have hkeys1 : r1.keys = reg.keys ++ [t.id] := by
        simp [ToolRegistry.keys, happ]
      have hnd1 : r1.keys.Nodup := by
        rw [hkeys1, List.nodup_append]
        refine ⟨hnd, List.nodup_singleton _, ?_⟩
        intro a ha hb
        simp at hb
        subst hb
        exact hnotmem ha
      have h3 := ih r1 reg' h hnd1
      rw [hkeys1] at h3
      simp only [List.map_cons]
      rw [List.append_cons]
      exact h3

/-- A non-raising `get_tools()` returns exactly the backend's tool list. -/
theorem get_tools_ok_eq {V : Type} (b : BackendServer V)
    (ts : List (RegisteredTool V)) (h : b.get_tools = .ok ts) :
    ts = b.toolsList := by
  cases b with
  | mock m =>
    cases h
    rfl
  | remote r =>
    simp only [BackendServer.get_tools, RemoteBackendServer.get_tools] at h
    cases hw : r.tools_wrapped with
    | some w =>
      rw [hw] at h
      cases h
      simp [BackendServer.toolsList, hw]
    | none =>
      rw [hw] at h
      cases hs : r.session with
      | none =>
        rw [hs] at h
        exact Except.noConfusion h
      | some sess =>
        rw [hs] at h
        cases h
        simp [BackendServer.toolsList, hw]

/-- A successful run of the outer registration loop appends the pairs of
every backend's tool list, in order. -/
theorem registerBackends_ok {V : Type} (bs : List (BackendServer V)) :
    ∀ reg reg' : ToolRegistry V, registerBackends reg bs = .ok reg' →
      reg'.tools = reg.tools ++ (joinTools bs).map (fun t => (t.id, t)) := by
  induction bs with
  | nil =>
    intro reg reg' h
    cases h
    simp [joinTools]
  | cons b rest ih =>
    intro reg reg' h
    cases hb : b.get_tools with
    | error e =>
      rw [registerBackends, hb] at h
      exact Except.noConfusion h
    | ok ts =>
      rw [registerBackends, hb] at h
      have h1 : (do
          let reg2 ← registerBackendTools reg ts
          registerBackends reg2 rest) = Except.ok reg' := h
      cases hr : registerBackendTools reg ts with
      | error e =>
        rw [hr] at h1
        exact Except.noConfusion h1
      | ok reg2 =>
        rw [hr] at h1
        have h2 := ih reg2 reg' h1
        have h3 := registerBackendTools_ok ts reg reg2 hr
        rw [h2, h3, get_tools_ok_eq b ts hb]
        simp [joinTools]

/-- A successful run of the outer registration loop implies the combined
key list (existing keys plus every registered tool id) has no duplicates. -/
theorem registerBackends_ok_nodup {V : Type} (bs : List (BackendServer V)) :
    ∀ reg reg' : ToolRegistry V, registerBackends reg bs = .ok reg' →
      reg.keys.Nodup →
      (reg.keys ++ (joinTools bs).map (fun t => t.id)).Nodup := by
  induction bs with
  | nil =>
    intro reg reg' h hnd
    simpa [joinTools] using hnd
  | cons b rest ih =>
    intro reg reg' h hnd
    cases hb : b.get_tools with
    | error e =>
      rw [registerBackends, hb] at h
      exact Except.noConfusion h
    | ok ts =>
      rw [registerBackends, hb] at h
      have h1 : (do
          let reg2 ← registerBackendTools reg ts
          registerBackends reg2 rest) = Except.ok reg' := h
      cases hr : registerBackendTools reg ts with
      | error e =>
        rw [hr] at h1
        exact Except.noConfusion h1
      | ok reg2 =>
        rw [hr] at h1
        replace h := h1
        have hts := registerBackendTools_ok_nodup ts reg reg2 hr hnd
        have hkeys2 : reg2.keys = reg.keys ++ ts.map (fun t => t.id) := by
          have h3 := registerBackendTools_ok ts reg reg2 hr
          simp [ToolRegistry.keys, h3, Function.comp]
        have hnd2 : reg2.keys.Nodup := by
          rw [hkeys2]
          exact hts
        have h4 := ih reg2 reg' h hnd2
        rw [hkeys2] at h4
        rw [get_tools_ok_eq b ts hb] at h4
        simp only [joinTools, List.map_cons, List.flatten_cons, List.map_append]
        rw [← List.append_assoc]
        simpa [joinTools] using h4

/-- When the components backend retrieval succeeds, the returned backends
are exactly the per-row contributions, in row order. -/
theorem mw_get_backends_ok {V : Type} (factories : FactoryTable V)
    (connectOutcome : String → ConnectOutcome V) (rows : List ServerRow) :
    ∀ bs, mw_get_backends_for_principal factories connectOutcome rows = .ok bs →
      bs = rows.filterMap (rowBackend factories connectOutcome) := by
  induction rows with
  | nil =>
    intro bs h
    cases h
    rfl
  | cons row rest ih =>
    intro bs h
    cases hen : row.enabled with
    | false =>
      rw [mw_get_backends_for_principal, hen] at h
      simp only [List.filterMap_cons, rowBackend, hen]
      exact ih bs h
    | true =>
      by_cases hk1 : row.kind = "local_mcp_mock"
      · cases hf : factoryGet factories row.factory with
        | none =>
          rw [mw_get_backends_for_principal, hen] at h
          simp only [Bool.not_true, if_false, hk1, if_true, hf] at h
          simp only [List.filterMap_cons, rowBackend, hen, hk1, hf,
            Bool.not_true, if_false, if_true, Option.map_none']
          exact ih bs h
        | some m =>
          rw [mw_get_backends_for_principal, hen] at h
          simp only [Bool.not_true, if_false, hk1, if_true, hf] at h
          cases hrest : mw_get_backends_for_principal factories connectOutcome rest with
          | error e =>
            rw [hrest] at h
            exact Except.noConfusion h
          | ok bs' =>
            rw [hrest] at h
            cases h
            simp only [List.filterMap_cons, rowBackend, hen, hk1, hf,
              Bool.not_true, if_false, if_true, Option.map_some']
            rw [ih bs' hrest]
            simp
      · by_cases hk2 : row.kind = "remote_mcp"
        · rw [mw_get_backends_for_principal, hen] at h
          simp only [Bool.not_true, if_false, hk1, hk2, if_true] at h
          cases hconn : ((RemoteBackendServer.init V row.connectionConfig.name
              row.connectionConfig).connect (connectOutcome row.name)).1 with
          | error e =>
            rw [hconn] at h
            exact Except.noConfusion h
          | ok u =>
            rw [hconn] at h
            cases hrest : mw_get_backends_for_principal factories connectOutcome rest with
            | error e =>
              rw [hrest] at h
              exact Except.noConfusion h
            | ok bs' =>
              rw [hrest] at h
              cases h
              simp only [List.filterMap_cons, rowBackend, hen, hk1, hk2,
                Bool.not_true, if_false, if_true, hconn]
              rw [ih bs' hrest]
              simp [hk1]
        · rw [mw_get_backends_for_principal, hen] at h
          simp only [Bool.not_true, if_false, hk1, hk2, if_true] at h
          simp only [List.filterMap_cons, rowBackend, hen, hk1, hk2,
            Bool.not_true, if_false, if_true]
          exact ih bs h

/-- Inversion of a successful `build_middleware_tool_registry`: backend
retrieval succeeded, the embedding backend was built, and registration of
the combined backend list succeeded. -/
theorem build_ok_parts {V : Type} (dbAllowed : String → List ServerRow)
    (factories : FactoryTable V) (connectOutcome : String → ConnectOutcome V)
    (em_upsert em_search : V → V) (p : Principal) (reg : ToolRegistry V)
    (h : build_middleware_tool_registry dbAllowed factories connectOutcome
        em_upsert em_search p = .ok reg) :
    ∃ bs emb,
      get_mcp_servers dbAllowed factories connectOutcome p = .ok bs
      ∧ build_embedding_manager em_upsert em_search p = .ok emb
      ∧ registerBackends (ToolRegistry.empty V)
          (bs ++ [BackendServer.mock emb]) = .ok reg := by
  unfold build_middleware_tool_registry at h
  cases hbs : get_mcp_servers dbAllowed factories connectOutcome p with
  | error e =>
    rw [hbs] at h
    exact Except.noConfusion h
  | ok bs =>
    rw [hbs] at h
    have h1 : (do
        let emb ← build_embedding_manager em_upsert em_search p
        registerBackends (ToolRegistry.empty V)
          (bs ++ [BackendServer.mock emb])) = Except.ok reg := h
    cases hemb : build_embedding_manager em_upsert em_search p with
    | error e =>
      rw [hemb] at h1
      exact Except.noConfusion h1
    | ok emb =>
      rw [hemb] at h1
      exact ⟨bs, emb, rfl, rfl, h1⟩

/-- The tool ids of the backend `build_embedding_manager` constructs. -/
theorem build_embedding_manager_ids {V : Type} (em_upsert em_search : V → V)
    (p : Principal) (emb : MockBackendServer V)
    (h : build_embedding_manager em_upsert em_search p = .ok emb) :
    emb.get_tools.map (fun t => t.id) = document_store_tool_ids p := by
  unfold build_embedding_manager at h
  cases hrole : p.role with
  | none =>
    rw [hrole] at h
    exact Except.noConfusion h
  | some role =>
    rw [hrole] at h
    dsimp only at h
    by_cases hadmin : role = "admin"
    · subst hadmin
      rw [if_pos rfl] at h
      cases h
      simp [document_store_tool_ids, hrole]
      rfl
    · rw [if_neg hadmin] at h
      cases h
      simp [document_store_tool_ids, hrole, hadmin]
      rfl

/-- The central characterization: when the components aggregation returns a
registry, that registry contains an id exactly when some database row's
contributed backend exposes it or the built-in `document_store` backend
exposes it. -/
theorem build_registry_ok_containsId {V : Type}
    (dbAllowed : String → List ServerRow) (factories : FactoryTable V)
    (connectOutcome : String → ConnectOutcome V) (em_upsert em_search : V → V)
    (p : Principal) (reg : ToolRegistry V)
    (h : build_middleware_tool_registry dbAllowed factories connectOutcome
        em_upsert em_search p = .ok reg) (id : String) :
    reg.containsId id = true ↔
      ((dbAllowed p.userId).any
          (fun row => (rowToolIds factories connectOutcome row).contains id) = true
        ∨ id ∈ document_store_tool_ids p) := by
  obtain ⟨bs, emb, hbs, hemb, hreg⟩ :=
    build_ok_parts dbAllowed factories connectOutcome em_upsert em_search p reg h
  have htools := registerBackends_ok (bs ++ [BackendServer.mock emb])
    (ToolRegistry.empty V) reg hreg
  have hfm : bs = (dbAllowed p.userId).filterMap (rowBackend factories connectOutcome) :=
    mw_get_backends_ok factories connectOutcome (dbAllowed p.userId) bs hbs
  have hids := build_embedding_manager_ids em_upsert em_search p emb hemb
  have hcontains : reg.containsId id = true ↔
      ∃ t ∈ joinTools (bs ++ [BackendServer.mock emb]), t.id = id := by
    simp only [ToolRegistry.containsId, htools, ToolRegistry.empty,
      List.nil_append, List.any_eq_true, List.mem_map]
    constructor
    · rintro ⟨kv, ⟨t, ht, rfl⟩, hkid⟩
      exact ⟨t, ht, by simpa using hkid⟩
    · rintro ⟨t, ht, hid⟩
      exact ⟨(t.id, t), ⟨t, ht, rfl⟩, by simpa using hid⟩
  rw [hcontains]
  have hjoin : joinTools (bs ++ [BackendServer.mock emb])
      = joinTools bs ++ emb.get_tools := by
    simp [joinTools, BackendServer.toolsList]
  rw [hjoin]
  constructor
  · rintro ⟨t, hmem, rfl⟩
    rcases List.mem_append.mp hmem with h1 | h2
    · left
      rw [List.any_eq_true]
      simp only [joinTools, List.mem_flatten, List.mem_map] at h1
      obtain ⟨l, ⟨b, hb, rfl⟩, htl⟩ := h1
      rw [hfm, List.mem_filterMap] at hb
      obtain ⟨row, hrow, hrb⟩ := hb
      refine ⟨row, hrow, ?_⟩
      rw [List.elem_iff]
      simp only [rowToolIds, hrb, BackendServer.toolIds]
      exact List.mem_map.mpr ⟨t, htl, rfl⟩
    · right
      rw [← hids]
      exact List.mem_map.mpr ⟨t, h2, rfl⟩
  · rintro (h1 | h2)
    · rw [List.any_eq_true] at h1
      obtain ⟨row, hrow, hcont⟩ := h1
      have hmem : id ∈ rowToolIds factories connectOutcome row :=
        List.elem_iff.mp hcont
      cases hrb : rowBackend factories connectOutcome row with
      | none =>
        simp only [rowToolIds, hrb] at hmem
        exact absurd hmem (List.not_mem_nil id)
      | some b =>
        simp only [rowToolIds, hrb, BackendServer.toolIds] at hmem
        obtain ⟨t, htl, htid⟩ := List.mem_map.mp hmem
        refine ⟨t, ?_, htid⟩
        refine List.mem_append.mpr (Or.inl ?_)
        simp only [joinTools, List.mem_flatten, List.mem_map]
        refine ⟨b.toolsList, ⟨b, ?_, rfl⟩, htl⟩
        rw [hfm, List.mem_filterMap]
        exact ⟨row, hrow, hrb⟩
    · rw [← hids] at h2
      obtain ⟨t, htl, htid⟩ := List.mem_map.mp h2
      exact ⟨t, List.mem_append.mpr (Or.inr htl), htid⟩

/-- C1 (amended): when the components aggregation returns a registry, the
registry contains a tool id exactly when either some database-allowed row
(enabled, instantiable, its connection succeeding) contributes a backend
exposing that id — ids are qualified by the backend's own server id — or the
id belongs to the built-in `document_store` backend, which is appended for
every principal without any descriptor (`documents.search` always,
`documents.upsert` when the principal's role is `admin`). -/
theorem claim_C1_amended (V : Type) (dbAllowed : String → List ServerRow)
    (factories : FactoryTable V) (connectOutcome : String → ConnectOutcome V)
    (em_upsert em_search : V → V) (p : Principal) (reg : ToolRegistry V)
    (h : build_middleware_tool_registry dbAllowed factories connectOutcome
        em_upsert em_search p = .ok reg) (id : String) :
    reg.containsId id = true ↔
      ((dbAllowed p.userId).any
          (fun row => (rowToolIds factories connectOutcome row).contains id) = true
        ∨ id ∈ document_store_tool_ids p) :=
  build_registry_ok_containsId dbAllowed factories connectOutcome
    em_upsert em_search p reg h id

/-- C1 counterexample: for a principal whose descriptor set is empty (the
database allows no server at all), the returned registry nevertheless
contains `document_store.documents.search` — a tool whose backend has no
enabled, authorized descriptor — so the claimed iff fails. -/
theorem claim_C1_counterexample :
    buildSampleNoDescriptors.map
        (fun reg => reg.containsId "document_store.documents.search") = .ok true
    ∧ (([] : List ServerRow).any
        (fun row => (rowToolIds ([] : FactoryTable Nat) sampleConnectFail row).contains
          "document_store.documents.search") = false) := ⟨rfl, rfl⟩

/-- C1 witness: the amended theorem at a one-row database — the hr row's
tool is in the registry and the admin-only upsert tool is not, for a
`user`-role principal. -/
theorem claim_C1_amended_witness :
    sampleRegOneRow.containsId "hr.get_policy" = true
    ∧ sampleRegOneRow.containsId "document_store.documents.upsert" = false := by
  have H := fun id => claim_C1_amended Nat sampleDbOneRow sampleFactories
    sampleConnectFail (fun v => v) (fun v => v) sampleUserPrincipal
    sampleRegOneRow rfl id
  constructor
  · exact (H "hr.get_policy").mpr (Or.inl (by decide))
  · cases hcc : sampleRegOneRow.containsId "document_store.documents.upsert" with
    | false => rfl
    | true =>
      exact absurd ((H "document_store.documents.upsert").mp hcc) (by decide)

/-- C4: `register` fails with the duplicate-tool `ValueError` whenever the
id is already present and never overwrites (the mapping is only extended on
success, and every existing entry survives a successful registration
unchanged); and when the combined tool lists of the aggregated providers
carry a duplicate id, the whole aggregation returns no registry. -/
theorem claim_C4_register_duplicate (V : Type) (reg : ToolRegistry V)
    (t t₀ : RegisteredTool V) :
    (reg.get t.id = some t₀ →
      reg.register t = .error ("Duplicate tool id: " ++ t.id))
    ∧ (∀ reg2, reg.register t = .ok reg2 →
        ∀ x u, reg.get x = some u → reg2.get x = some u)
    ∧ (∀ (dbAllowed : String → List ServerRow) (factories : FactoryTable V)
        (connectOutcome : String → ConnectOutcome V) (em_upsert em_search : V → V)
        (p : Principal) (bs : List (BackendServer V)) (emb : MockBackendServer V),
        get_mcp_servers dbAllowed factories connectOutcome p = .ok bs →
        build_embedding_manager em_upsert em_search p = .ok emb →
        ¬ ((joinTools (bs ++ [BackendServer.mock emb])).map (fun t2 => t2.id)).Nodup →
        exceptIsOk (build_middleware_tool_registry dbAllowed factories
          connectOutcome em_upsert em_search p) = false) := by
  refine ⟨?_, ?_, ?_⟩
  · intro hget
    obtain ⟨kv, hfind, hkv⟩ := Option.map_eq_some'.mp hget
    have hmem := List.mem_of_find?_eq_some hfind
    have hpred := List.find?_some hfind
    have hany : reg.tools.any (fun kv => kv.1 = t.id) = true :=
      List.any_eq_true.mpr ⟨kv, hmem, hpred⟩
    exact register_error_of_contains reg t hany
  · intro reg2 hok x u hget
    obtain ⟨kv, hfind, hkv⟩ := Option.map_eq_some'.mp hget
    unfold ToolRegistry.get
    rw [(register_ok_eq reg t reg2 hok).1, List.find?_append, hfind]
    simp [hkv]
  · intro dbAllowed factories connectOutcome em_upsert em_search p bs emb
      hbs hemb hnodup
    cases hb : build_middleware_tool_registry dbAllowed factories
        connectOutcome em_upsert em_search p with
    | error e => rfl
    | ok reg' =>
      exfalso
      obtain ⟨bs', emb', hbs', hemb', hreg'⟩ := build_ok_parts dbAllowed
        factories connectOutcome em_upsert em_search p reg' hb
      have hbseq : bs' = bs := by
        have := hbs'.symm.trans hbs
        exact Except.ok.inj this
      have hembeq : emb' = emb := by
        have := hemb'.symm.trans hemb
        exact Except.ok.inj this
      rw [hbseq, hembeq] at hreg'
      have hnd := registerBackends_ok_nodup (bs ++ [BackendServer.mock emb])
        (ToolRegistry.empty V) reg' hreg' (by simp [ToolRegistry.empty, ToolRegistry.keys])
      simp only [ToolRegistry.empty, ToolRegistry.keys, List.map_nil,
        List.nil_append] at hnd
      exact hnodup hnd

/-- C4 witness: registering a second tool under the already-present id
`hr.get_policy` raises the duplicate error, and an aggregation whose two
providers expose the same tool id returns no registry. -/
theorem claim_C4_register_duplicate_witness :
    sampleRegistryHr.register sampleToolVariant
      = .error "Duplicate tool id: hr.get_policy"
    ∧ exceptIsOk (build_middleware_tool_registry (fun _ => dupRows) dupFactories
        sampleConnectFail (fun v => v) (fun v => v) sampleUserPrincipal) = false := by
  constructor
  · exact (claim_C4_register_duplicate Nat sampleRegistryHr sampleToolVariant
      sampleTool).1 rfl
  · exact (claim_C4_register_duplicate Nat (ToolRegistry.empty Nat) sampleTool
      sampleTool).2.2 (fun _ => dupRows) dupFactories sampleConnectFail
      (fun v => v) (fun v => v) sampleUserPrincipal
      [BackendServer.mock dupBackendA, BackendServer.mock dupBackendB]
      dsSearchBackendSample rfl rfl (by decide)

/-- C10: the in-process gating of the `document_store` backend.  A principal
without a `role` entry makes `build_embedding_manager` — and with it the
whole aggregation, once backend retrieval has succeeded — fail with the
`KeyError`.  When the aggregation returns a registry, it always contains
`documents.search`; and provided no database row exposes the upsert id (they
live in their own namespaces), the registry contains `documents.upsert`
exactly when the principal's role is `admin`. -/
theorem claim_C10_document_store_gating (V : Type)
    (dbAllowed : String → List ServerRow) (factories : FactoryTable V)
    (connectOutcome : String → ConnectOutcome V) (em_upsert em_search : V → V)
    (p : Principal) :
    (p.role = none →
      build_embedding_manager em_upsert em_search p = .error keyErrorRole
      ∧ ∀ bs, get_mcp_servers dbAllowed factories connectOutcome p = .ok bs →
          build_middleware_tool_registry dbAllowed factories connectOutcome
            em_upsert em_search p = .error keyErrorRole)
    ∧ (∀ reg, build_middleware_tool_registry dbAllowed factories connectOutcome
          em_upsert em_search p = .ok reg →
        reg.containsId "document_store.documents.search" = true
        ∧ ((∀ row ∈ dbAllowed p.userId,
              "document_store.documents.upsert" ∉ rowToolIds factories connectOutcome row) →
            (reg.containsId "document_store.documents.upsert" = true
              ↔ p.role = some "admin"))) := by
  constructor
  · intro hrole
    have hemb : build_embedding_manager em_upsert em_search p = .error keyErrorRole := by
      unfold build_embedding_manager
      rw [hrole]
    refine ⟨hemb, ?_⟩
    intro bs hbs
    have hstep : build_middleware_tool_registry dbAllowed factories connectOutcome
        em_upsert em_search p
        = (do
            let emb ← build_embedding_manager em_upsert em_search p
            registerBackends (ToolRegistry.empty V)
              (bs ++ [BackendServer.mock emb])) := by
      unfold build_middleware_tool_registry
      rw [hbs]
      rfl
    rw [hstep, hemb]
    rfl
  · intro reg hb
    have H := build_registry_ok_containsId dbAllowed factories connectOutcome
      em_upsert em_search p reg hb
    obtain ⟨bs, emb, hbs, hemb, hreg⟩ := build_ok_parts dbAllowed factories
      connectOutcome em_upsert em_search p reg hb
    cases hrole : p.role with
    | none =>
      exfalso
      unfold build_embedding_manager at hemb
      rw [hrole] at hemb
      exact Except.noConfusion hemb
    | some role =>
      constructor
      · refine (H "document_store.documents.search").mpr (Or.inr ?_)
        simp only [document_store_tool_ids, hrole]
        by_cases hadmin : role = "admin"
        · simp [hadmin]
        · simp [hadmin]
      · intro hnorow
        constructor
        · intro hcc
          rcases (H "document_store.documents.upsert").mp hcc with h1 | h2
          · rw [List.any_eq_true] at h1
            obtain ⟨row, hrow, hcont⟩ := h1
            exact absurd (List.elem_iff.mp hcont) (hnorow row hrow)
          · simp only [document_store_tool_ids, hrole] at h2
            by_cases hadmin : role = "admin"
            · rw [hadmin]
            · rw [if_neg hadmin] at h2
              simp at h2
        · intro hadm
          have hra : role = "admin" := by
            injection hadm
          refine (H "document_store.documents.upsert").mpr (Or.inr ?_)
          simp [document_store_tool_ids, hrole, hra]

/-- C10 witness: a principal without a `role` entry fails both construction
and aggregation with the `KeyError`; an admin principal over an empty
database gets both `document_store` tools in the registry. -/
theorem claim_C10_document_store_gating_witness :
    build_embedding_manager (fun v : Nat => v) (fun v => v) sampleNoRolePrincipal
      = .error keyErrorRole
    ∧ build_middleware_tool_registry (fun _ => []) [] sampleConnectFail
        (fun v : Nat => v) (fun v => v) sampleNoRolePrincipal = .error keyErrorRole
    ∧ sampleRegAdmin.containsId "document_store.documents.search" = true
    ∧ sampleRegAdmin.containsId "document_store.documents.upsert" = true := by
  have H1 := (claim_C10_document_store_gating Nat (fun _ => []) [] sampleConnectFail
    (fun v => v) (fun v => v) sampleNoRolePrincipal).1 rfl
  have H2 := (claim_C10_document_store_gating Nat (fun _ => []) [] sampleConnectFail
    (fun v => v) (fun v => v) sampleAdminPrincipal).2 sampleRegAdmin rfl
  refine ⟨H1.1, H1.2 [] rfl, H2.1, ?_⟩
  exact (H2.2 (by simp)).mpr rfl

end Middleware
